import Mathlib

/-!
Verification of the message-cache and optimistic-send core of the
about-pets chat application.

The embedding follows the TypeScript source:
  * `MessageCacheService` (src/AboutPetsApp/src/services/messageCacheService.ts),
    backed by the MMKV key-value store (src/AboutPetsApp/src/storage/mmkv.ts);
  * the `useChatMessages` hook (send / confirm / fail / retry state updates);
  * the subscription error handlers of `ChatFirestoreService.subscribeToMessages`
    and `DynamicChatService.subscribeToUserChats`.

Timestamps are JavaScript epoch milliseconds (`Date.prototype.getTime`),
modelled as `Int`.  `Date.prototype.toISOString` followed by `new Date(iso)`
is the identity on valid dates at millisecond precision, so the serialized
timestamp is modelled by the same integer.  Clock readings (`Date.now()`)
are modelled as `Nat` (milliseconds since the 1970 epoch).
-/

/-- Message delivery status, as used by the optimistic-send pipeline. -/
inductive MessageStatus where
  | sending
  | sent
  | failed
  deriving DecidableEq, Repr

/-- A chat message (src/AboutPetsApp/src/types/chat.ts plus the `status`
field set and read by the hook and the Firestore service). -/
structure Message where
  id : String
  text : String
  senderId : String
  senderName : String
  timestamp : Int
  chatId : String
  status : MessageStatus
  deriving DecidableEq, Repr

/-- A value stored in the MMKV cache under one key: either a blob that
deserializes to a message list, or a blob on which `JSON.parse` (or the
subsequent mapping) throws. -/
inductive CacheValue where
  | good (msgs : List Message)
  | corrupt
  deriving DecidableEq, Repr

/-- The MMKV `cacheStorage` instance together with injected faults: keys at
which `set` / `getString` / `delete` throw.  The store itself maps keys to
whole blobs. -/
structure MMKVStore where
  data : List (String × CacheValue)
  setFails : List String
  getFails : List String
  deleteFails : List String
  deriving DecidableEq, Repr

/-- Key lookup in the store's association list. -/
def kvGet (k : String) : List (String × CacheValue) → Option CacheValue
  | [] => none
  | (k2, v) :: rest => if k2 = k then some v else kvGet k rest

/-- Remove every binding of a key. -/
def kvDelete (k : String) : List (String × CacheValue) → List (String × CacheValue)
  | [] => []
  | p :: rest => if p.1 = k then kvDelete k rest else p :: kvDelete k rest

/-- Overwrite the binding of a key. -/
def kvSet (k : String) (v : CacheValue) (l : List (String × CacheValue)) :
    List (String × CacheValue) :=
  (k, v) :: kvDelete k l

/-- `cacheStorage.set`, throwing (`Except.error`) at fault-injected keys. -/
def mmkvSet (st : MMKVStore) (k : String) (v : CacheValue) : Except Unit MMKVStore :=
  if k ∈ st.setFails then .error () else .ok { st with data := kvSet k v st.data }

/-- `cacheStorage.getString`, returning `none` for an absent key. -/
def mmkvGetString (st : MMKVStore) (k : String) : Except Unit (Option CacheValue) :=
  if k ∈ st.getFails then .error () else .ok (kvGet k st.data)

/-- `cacheStorage.delete`. -/
def mmkvDelete (st : MMKVStore) (k : String) : Except Unit MMKVStore :=
  if k ∈ st.deleteFails then .error () else .ok { st with data := kvDelete k st.data }

/-- `MessageCacheService.getCacheKey`. -/
def getCacheKey (chatId : String) : String := "messages_" ++ chatId

/-- The sort relation of `saveMessages`: the comparator
`(a, b) => new Date(b.timestamp).getTime() - new Date(a.timestamp).getTime()`
orders `a` before `b` exactly when `b.timestamp ≤ a.timestamp`
(newest first, ties keeping input order). -/
def msgNewerEq (a b : Message) : Prop := b.timestamp ≤ a.timestamp

instance : DecidableRel msgNewerEq := fun a b => Int.decLe b.timestamp a.timestamp

instance : IsTotal Message msgNewerEq := ⟨fun a b => Int.le_total b.timestamp a.timestamp⟩

instance : IsTrans Message msgNewerEq :=
  ⟨fun _ _ _ h1 h2 => le_trans h2 h1⟩

/-- `[...messages].sort(comparator)`: JavaScript's `Array.prototype.sort` is
stable, and `List.insertionSort` is the stable sort for this comparator. -/
def sortByTimestampDesc (msgs : List Message) : List Message :=
  List.insertionSort msgNewerEq msgs

/-- The `try` block of `MessageCacheService.saveMessages`: sort newest-first,
truncate to 50, serialize and write under the chat's cache key.  The write
may throw. -/
def saveMessagesBody (st : MMKVStore) (chatId : String) (msgs : List Message) :
    Except Unit MMKVStore :=
  mmkvSet st (getCacheKey chatId) (CacheValue.good ((sortByTimestampDesc msgs).take 50))

/-- `MessageCacheService.saveMessages`: the surrounding `try`/`catch` logs and
swallows every storage error, so the function is total and leaves the store
unchanged when the underlying write throws. -/
def saveMessages (st : MMKVStore) (chatId : String) (msgs : List Message) : MMKVStore :=
  match saveMessagesBody st chatId msgs with
  | .ok st2 => st2
  | .error _ => st

/-- `MessageCacheService.loadMessages`: an absent entry, a blob that fails to
deserialize, and a throwing store read all degrade to the empty list. -/
def loadMessages (st : MMKVStore) (chatId : String) : List Message :=
  match mmkvGetString st (getCacheKey chatId) with
  | .error _ => []
  | .ok none => []
  | .ok (some .corrupt) => []
  | .ok (some (.good msgs)) => msgs

/-- `MessageCacheService.clearMessages`: delete the chat's entry, swallowing
storage errors. -/
def clearMessages (st : MMKVStore) (chatId : String) : MMKVStore :=
  match mmkvDelete st (getCacheKey chatId) with
  | .ok st2 => st2
  | .error _ => st

theorem kvGet_kvSet_self (k : String) (v : CacheValue) (l : List (String × CacheValue)) :
    kvGet k (kvSet k v l) = some v := by
  simp [kvSet, kvGet]

theorem kvGet_kvDelete_ne (k k2 : String) (l : List (String × CacheValue)) (h : k ≠ k2) :
    kvGet k2 (kvDelete k l) = kvGet k2 l := by
  induction l with
  | nil => rfl
  | cons p rest ih =>
    obtain ⟨kp, vp⟩ := p
    have h2 : ¬k2 = k := fun e => h e.symm
    by_cases hk : kp = k
    · have hne : ¬kp = k2 := by rw [hk]; exact h
      simp [kvDelete, kvGet, hk, hne, h, ih]
    · by_cases hk2 : kp = k2 <;> simp [kvDelete, kvGet, hk, hk2, h2, ih]

theorem kvGet_kvSet_ne (k k2 : String) (v : CacheValue) (l : List (String × CacheValue))
    (h : k ≠ k2) : kvGet k2 (kvSet k v l) = kvGet k2 l := by
  simp [kvSet, kvGet, h, kvGet_kvDelete_ne k k2 l h]

/-- After a successful save, loading the same chat returns the sorted,
truncated list that was written. -/
theorem save_load_eq (st : MMKVStore) (c : String) (msgs : List Message)
    (hset : getCacheKey c ∉ st.setFails) (hget : getCacheKey c ∉ st.getFails) :
    loadMessages (saveMessages st c msgs) c = (sortByTimestampDesc msgs).take 50 := by
  simp [saveMessages, saveMessagesBody, mmkvSet, hset, loadMessages, mmkvGetString, hget,
    kvGet_kvSet_self]

/-!  The optimistic send pipeline (`useChatMessages` in the hooks file).

Each `sendMessage` / `retryMessage` call is split at its asynchronous
boundary: `sendStart` / `retryStart` model everything up to the remote
write (validation, construction of the pending entry, the optimistic list
update, and the payload handed to `ChatFirestoreService.sendMessage`),
while `confirmSend` / `failSend` model the state updates run when that
write resolves or rejects.  `Date.now()` and `new Date()` are two reads of
the same millisecond clock at the start of the call; they are modelled as
one reading `now`. -/

/-- The WhiteSpace and LineTerminator code points trimmed by JavaScript's
`String.prototype.trim`. -/
def isJsWhitespace (c : Char) : Bool :=
  c.val == 9 || c.val == 10 || c.val == 11 || c.val == 12 || c.val == 13 ||
  c.val == 32 || c.val == 0xA0 || c.val == 0x1680 ||
  (0x2000 ≤ c.val && c.val ≤ 0x200A) ||
  c.val == 0x2028 || c.val == 0x2029 || c.val == 0x202F || c.val == 0x205F ||
  c.val == 0x3000 || c.val == 0xFEFF

/-- `text.trim()`. -/
def jsTrim (s : String) : String :=
  String.mk (((s.data.dropWhile isJsWhitespace).reverse.dropWhile isJsWhitespace).reverse)

/-- Payload handed to `ChatFirestoreService.sendMessage`. -/
structure SendPayload where
  text : String
  senderId : String
  senderName : String
  chatId : String
  deriving DecidableEq, Repr

/-- Result of the synchronous part of a send or retry call: the updated
message list and the remote write attempted, if any. -/
structure SendEffect where
  state : List Message
  write : Option SendPayload
  deriving DecidableEq, Repr

/-- The temporary client id: the template literal `temp-${Date.now()}`. -/
def tempId (now : Nat) : String := "temp-" ++ Nat.repr now

/-- The temporary message object built by `sendMessage`. -/
def pendingMessage (uid uname chatId : String) (now : Nat) (text : String) : Message :=
  { id := tempId now, text := text, senderId := uid, senderName := uname,
    timestamp := (now : Int), chatId := chatId, status := .sending }

/-- `sendMessage` up to the remote write: whitespace-only text returns
without touching the list or the network; otherwise the pending message is
prepended and the trimmed payload is written remotely. -/
def sendStart (uid uname chatId : String) (now : Nat) (text : String)
    (msgs : List Message) : SendEffect :=
  if jsTrim text = "" then { state := msgs, write := none }
  else
    { state := pendingMessage uid uname chatId now (jsTrim text) :: msgs,
      write := some { text := jsTrim text, senderId := uid, senderName := uname,
                      chatId := chatId } }

/-- The state update run when the remote write resolves with the
server-assigned id: replace id and mark `sent` on the entry matched by id. -/
def confirmSend (tid sid : String) (msgs : List Message) : List Message :=
  msgs.map fun m => if m.id = tid then { m with id := sid, status := .sent } else m

/-- The state update run when the remote write rejects: mark the entry
matched by id as `failed`. -/
def failSend (tid : String) (msgs : List Message) : List Message :=
  msgs.map fun m => if m.id = tid then { m with status := .failed } else m

/-- The state update at the start of `retryMessage`: mark the entry matched
by id as `sending` again. -/
def markSending (tid : String) (msgs : List Message) : List Message :=
  msgs.map fun m => if m.id = tid then { m with status := .sending } else m

/-- The payload `retryMessage` hands to `ChatFirestoreService.sendMessage`:
the fields of the message being retried. -/
def retryPayload (msg : Message) : SendPayload :=
  { text := msg.text, senderId := msg.senderId, senderName := msg.senderName,
    chatId := msg.chatId }

/-- `retryMessage` up to the remote write: a message whose status is not
`failed` returns immediately; otherwise the matched entry is marked
`sending` and the identical payload is re-sent. -/
def retryStart (msg : Message) (msgs : List Message) : SendEffect :=
  if msg.status ≠ MessageStatus.failed then { state := msgs, write := none }
  else { state := markSending msg.id msgs, write := some (retryPayload msg) }

/-- Mapping an id-matched update over a list containing exactly one entry
with the matched id rewrites that entry and nothing else. -/
theorem map_ite_middle (g : Message → Message) (tid : String) (pre post : List Message)
    (pending : Message) (hid : pending.id = tid)
    (hpre : ∀ m ∈ pre, m.id ≠ tid) (hpost : ∀ m ∈ post, m.id ≠ tid) :
    (pre ++ pending :: post).map (fun m => if m.id = tid then g m else m)
      = pre ++ g pending :: post := by
  rw [List.map_append, List.map_cons, if_pos hid]
  have hp : pre.map (fun m => if m.id = tid then g m else m) = pre := by
    rw [List.map_congr_left (fun a ha => if_neg (hpre a ha)), List.map_id']
  have hq : post.map (fun m => if m.id = tid then g m else m) = post := by
    rw [List.map_congr_left (fun a ha => if_neg (hpost a ha)), List.map_id']
  rw [hp, hq]

/-!  Decimal rendering.  `Nat.repr` (the rendering used by the `temp-` id's
template literal) is injective; proved by relating the fuel-based
`Nat.toDigitsCore` to a structural digit list. -/

/-- Decimal digit list of a natural number, most significant first. -/
def decDigits (n : Nat) : List Char :=
  if _h : n < 10 then [Nat.digitChar n]
  else decDigits (n / 10) ++ [Nat.digitChar (n % 10)]
termination_by n
decreasing_by exact Nat.div_lt_self (by omega) (by omega)

theorem decDigits_lt (n : Nat) (h : n < 10) : decDigits n = [Nat.digitChar n] := by
  rw [decDigits]
  simp [h]

theorem decDigits_ge (n : Nat) (h : ¬n < 10) :
    decDigits n = decDigits (n / 10) ++ [Nat.digitChar (n % 10)] := by
  conv_lhs => rw [decDigits]
  simp [h]

theorem toDigitsCore_eq_decDigits :
    ∀ (fuel n : Nat) (acc : List Char), n < fuel →
      Nat.toDigitsCore 10 fuel n acc = decDigits n ++ acc := by
  intro fuel
  induction fuel with
  | zero => intro n acc h; exact absurd h (Nat.not_lt_zero n)
  | succ fuel ih =>
    intro n acc h
    by_cases h10 : n / 10 = 0
    · have hn : n < 10 := by omega
      have hmod : n % 10 = n := Nat.mod_eq_of_lt hn
      simp [Nat.toDigitsCore, h10, decDigits_lt n hn, hmod]
    · have hn : ¬n < 10 := by omega
      have hlt : n / 10 < fuel := by
        have hd : n / 10 < n := Nat.div_lt_self (by omega) (by omega)
        omega
      simp only [Nat.toDigitsCore, h10, if_false]
      rw [ih (n / 10) (Nat.digitChar (n % 10) :: acc) hlt, decDigits_ge n hn,
        List.append_assoc, List.singleton_append]

theorem decDigits_ne_nil (n : Nat) : decDigits n ≠ [] := by
  by_cases h : n < 10
  · rw [decDigits_lt n h]
    simp
  · rw [decDigits_ge n h]
    simp

theorem digitChar_inj10 :
    ∀ a : Nat, a < 10 → ∀ b : Nat, b < 10 → Nat.digitChar a = Nat.digitChar b → a = b := by
  decide

theorem decDigits_inj : ∀ m n : Nat, decDigits m = decDigits n → m = n := by
  intro m
  induction m using Nat.strong_induction_on with
  | _ m ih =>
    intro n h
    by_cases hm : m < 10 <;> by_cases hn : n < 10
    · rw [decDigits_lt m hm, decDigits_lt n hn] at h
      exact digitChar_inj10 m hm n hn (List.singleton_inj.mp h)
    · exfalso
      rw [decDigits_lt m hm, decDigits_ge n hn] at h
      have hl := congrArg List.length h
      simp only [List.length_singleton, List.length_append] at hl
      have hz : (decDigits (n / 10)).length = 0 := by omega
      exact decDigits_ne_nil (n / 10) (List.length_eq_zero.mp hz)
    · exfalso
      rw [decDigits_ge m hm, decDigits_lt n hn] at h
      have hl := congrArg List.length h
      simp only [List.length_singleton, List.length_append] at hl
      have hz : (decDigits (m / 10)).length = 0 := by omega
      exact decDigits_ne_nil (m / 10) (List.length_eq_zero.mp hz)
    · rw [decDigits_ge m hm, decDigits_ge n hn] at h
      have h' := congrArg List.reverse h
      simp only [List.reverse_append, List.reverse_cons, List.reverse_nil,
        List.nil_append, List.singleton_append, List.cons.injEq] at h'
      obtain ⟨h1, h2⟩ := h'
      have hmod : m % 10 = n % 10 :=
        digitChar_inj10 (m % 10) (Nat.mod_lt m (by omega)) (n % 10) (Nat.mod_lt n (by omega)) h1
      have hdiv : m / 10 = n / 10 :=
        ih (m / 10) (Nat.div_lt_self (by omega) (by omega)) (n / 10) (List.reverse_inj.mp h2)
      omega

theorem natRepr_eq_decDigits (n : Nat) : Nat.repr n = (decDigits n).asString := by
  show (Nat.toDigits 10 n).asString = (decDigits n).asString
  rw [Nat.toDigits, toDigitsCore_eq_decDigits (n + 1) n [] (Nat.lt_succ_self n),
    List.append_nil]

theorem natRepr_inj (m n : Nat) (h : Nat.repr m = Nat.repr n) : m = n := by
  rw [natRepr_eq_decDigits, natRepr_eq_decDigits] at h
  have h2 : decDigits m = decDigits n := by
    have h3 := congrArg String.data h
    simpa [List.asString] using h3
  exact decDigits_inj m n h2

/-- Distinct millisecond clock readings yield distinct temporary ids. -/
theorem tempId_inj (m n : Nat) (h : tempId m = tempId n) : m = n := by
  unfold tempId at h
  have h2 := congrArg String.data h
  simp only [String.data_append] at h2
  exact natRepr_inj m n (String.ext (List.append_cancel_left h2))

/-!  Subscription error handling. -/

/-- A Firestore error delivered to a subscription error callback: its
`code` and its `message`. -/
structure FsError where
  code : String
  message : String
  deriving DecidableEq, Repr

/-- The error callback of `DynamicChatService.subscribeToUserChats`:
known codes are mapped to user-facing category messages, any other error
object is forwarded unchanged.  The function returns the message of the
error handed to `onError`. -/
def userChatsErrorMessage (e : FsError) : String :=
  if e.code = "failed-precondition" then
    "Database setup required. Please check Firestore indexes."
  else if e.code = "permission-denied" then
    "Permission denied. Please check your authentication."
  else if e.code = "unavailable" then
    "Service temporarily unavailable. Please try again."
  else e.message

/-- The error callback of `ChatFirestoreService.subscribeToMessages`: the
error is logged and forwarded to `onError` unchanged, with no
classification. -/
def messagesErrorMessage (e : FsError) : String := e.message

/-!  Remaining helper lemmas. -/

theorem kvGet_kvDelete_self (k : String) (l : List (String × CacheValue)) :
    kvGet k (kvDelete k l) = none := by
  induction l with
  | nil => rfl
  | cons p rest ih =>
    obtain ⟨kp, vp⟩ := p
    by_cases hk : kp = k <;> simp [kvDelete, kvGet, hk, ih]

theorem getCacheKey_inj (c1 c2 : String) (h : getCacheKey c1 = getCacheKey c2) : c1 = c2 := by
  unfold getCacheKey at h
  have h2 := congrArg String.data h
  simp only [String.data_append] at h2
  exact String.ext (List.append_cancel_left h2)

/-- Mapping an id-matched update over a list whose head carries the matched
id rewrites the head and leaves the rest unchanged. -/
theorem map_ite_head (g : Message → Message) (tid : String) (pending : Message)
    (rest : List Message) (hid : pending.id = tid) (hrest : ∀ m ∈ rest, m.id ≠ tid) :
    (pending :: rest).map (fun m => if m.id = tid then g m else m) = g pending :: rest := by
  have h := map_ite_middle g tid [] rest pending hid (by simp) hrest
  simpa using h

/-!  Concrete inputs used by the witnesses. -/

/-- An empty, fault-free store. -/
def wStore : MMKVStore := { data := [], setFails := [], getFails := [], deleteFails := [] }

/-- A concrete message for chat "chat1". -/
def wMsg (i : String) (ts : Int) : Message :=
  { id := i, text := "hello", senderId := "u", senderName := "U", timestamp := ts,
    chatId := "chat1", status := .sent }

/-!  The claims. -/

/-- Claim C1: for every chat id and every finite list of messages with valid
timestamps, save followed by load for the same chat id returns the messages
with the latest timestamps — all of them when the list has at most 50, and
exactly the 50 latest when it has more — sorted newest-first by timestamp,
regardless of the order of the input list.  (The underlying store is not
fault-injected at the chat's key; store faults are Claim C7's subject.) -/
theorem save_then_load_returns_latest_sorted (st : MMKVStore) (c : String)
    (msgs : List Message)
    (hset : getCacheKey c ∉ st.setFails) (hget : getCacheKey c ∉ st.getFails) :
    List.Pairwise (fun a b => b.timestamp ≤ a.timestamp)
        (loadMessages (saveMessages st c msgs) c)
    ∧ (loadMessages (saveMessages st c msgs) c).length = min 50 msgs.length
    ∧ (msgs.length ≤ 50 → (loadMessages (saveMessages st c msgs) c).Perm msgs)
    ∧ ∃ dropped : List Message,
        ((loadMessages (saveMessages st c msgs) c) ++ dropped).Perm msgs
        ∧ ∀ a ∈ loadMessages (saveMessages st c msgs) c, ∀ b ∈ dropped,
            b.timestamp ≤ a.timestamp := by
  rw [save_load_eq st c msgs hset hget]
  have hsorted : List.Sorted msgNewerEq (sortByTimestampDesc msgs) :=
    List.sorted_insertionSort msgNewerEq msgs
  have hperm : (sortByTimestampDesc msgs).Perm msgs :=
    List.perm_insertionSort msgNewerEq msgs
  have hlen : (sortByTimestampDesc msgs).length = msgs.length := hperm.length_eq
  refine ⟨?_, ?_, ?_, ?_⟩
  · exact List.Pairwise.sublist (List.take_sublist 50 _) hsorted
  · rw [List.length_take, hlen]
  · intro hle
    rw [List.take_of_length_le (by rw [hlen]; exact hle)]
    exact hperm
  · refine ⟨(sortByTimestampDesc msgs).drop 50, ?_, ?_⟩
    · rw [List.take_append_drop]
      exact hperm
    · have hp := List.pairwise_append.mp
        (show List.Pairwise msgNewerEq
            ((sortByTimestampDesc msgs).take 50 ++ (sortByTimestampDesc msgs).drop 50) by
          rw [List.take_append_drop]
          exact hsorted)
      exact fun a ha b hb => hp.2.2 a ha b hb

/-- Witness for Claim C1 at a concrete store and an out-of-order two-message
list. -/
theorem save_then_load_returns_latest_sorted_witness :
    getCacheKey "chat1" ∉ wStore.setFails ∧ getCacheKey "chat1" ∉ wStore.getFails ∧
    (List.Pairwise (fun a b => b.timestamp ≤ a.timestamp)
        (loadMessages (saveMessages wStore "chat1" [wMsg "1" 100, wMsg "2" 200]) "chat1")
    ∧ (loadMessages (saveMessages wStore "chat1" [wMsg "1" 100, wMsg "2" 200]) "chat1").length
        = min 50 ([wMsg "1" 100, wMsg "2" 200] : List Message).length
    ∧ (([wMsg "1" 100, wMsg "2" 200] : List Message).length ≤ 50 →
        (loadMessages (saveMessages wStore "chat1" [wMsg "1" 100, wMsg "2" 200]) "chat1").Perm
          [wMsg "1" 100, wMsg "2" 200])
    ∧ ∃ dropped : List Message,
        ((loadMessages (saveMessages wStore "chat1" [wMsg "1" 100, wMsg "2" 200]) "chat1")
            ++ dropped).Perm [wMsg "1" 100, wMsg "2" 200]
        ∧ ∀ a ∈ loadMessages (saveMessages wStore "chat1" [wMsg "1" 100, wMsg "2" 200]) "chat1",
            ∀ b ∈ dropped, b.timestamp ≤ a.timestamp) :=
  ⟨by decide, by decide,
    save_then_load_returns_latest_sorted wStore "chat1" [wMsg "1" 100, wMsg "2" 200]
      (by decide) (by decide)⟩

/-- Claim C2: when a send's remote write succeeds, the pending entry's
temporary id is replaced by the server-assigned id and its status becomes
`sent`; the entry is selected by id equality, so every other entry — even
one with identical text — is left unchanged in place. -/
theorem confirm_replaces_only_matched_entry (pre post : List Message) (pending : Message)
    (sid : String) (hpre : ∀ m ∈ pre, m.id ≠ pending.id)
    (hpost : ∀ m ∈ post, m.id ≠ pending.id) :
    confirmSend pending.id sid (pre ++ pending :: post)
      = pre ++ { pending with id := sid, status := .sent } :: post := by
  unfold confirmSend
  exact map_ite_middle _ pending.id pre post pending rfl hpre hpost

/-- Witness for Claim C2: the list holds another message with the same text
"hello"; only the entry with the temporary id is rewritten. -/
theorem confirm_replaces_only_matched_entry_witness :
    (∀ m ∈ [wMsg "m9" 300], m.id ≠ (pendingMessage "u" "U" "chat1" 7 "hello").id)
    ∧ (∀ m ∈ [wMsg "m3" 50], m.id ≠ (pendingMessage "u" "U" "chat1" 7 "hello").id)
    ∧ confirmSend (pendingMessage "u" "U" "chat1" 7 "hello").id "srv1"
        ([wMsg "m9" 300] ++ pendingMessage "u" "U" "chat1" 7 "hello" :: [wMsg "m3" 50])
      = [wMsg "m9" 300]
          ++ { pendingMessage "u" "U" "chat1" 7 "hello" with
                id := "srv1", status := .sent } :: [wMsg "m3" 50] :=
  ⟨by decide, by decide,
    confirm_replaces_only_matched_entry [wMsg "m9" 300] [wMsg "m3" 50]
      (pendingMessage "u" "U" "chat1" 7 "hello") "srv1" (by decide) (by decide)⟩

/-- Claim C3: a failing send marks the pending entry `failed`, keeping its
temporary id and text and leaving it in the list; retrying that failed
entry re-attempts the remote write with the identical payload, marking the
entry `sent` with the server id on success and `failed` again on repeated
failure (the repeated-failure update is the same `failSend` equation
applied to the retried state, which equals the original pending state). -/
theorem fail_then_retry_uses_identical_payload (uid uname c text sid : String) (now : Nat)
    (msgs0 : List Message) (hne : jsTrim text ≠ "")
    (hfresh : ∀ m ∈ msgs0, m.id ≠ tempId now) :
    sendStart uid uname c now text msgs0
      = { state := pendingMessage uid uname c now (jsTrim text) :: msgs0,
          write := some { text := jsTrim text, senderId := uid, senderName := uname,
                          chatId := c } }
    ∧ failSend (tempId now) (pendingMessage uid uname c now (jsTrim text) :: msgs0)
      = { pendingMessage uid uname c now (jsTrim text) with status := .failed } :: msgs0
    ∧ retryStart { pendingMessage uid uname c now (jsTrim text) with status := .failed }
        ({ pendingMessage uid uname c now (jsTrim text) with status := .failed } :: msgs0)
      = { state := pendingMessage uid uname c now (jsTrim text) :: msgs0,
          write := some { text := jsTrim text, senderId := uid, senderName := uname,
                          chatId := c } }
    ∧ confirmSend (tempId now) sid (pendingMessage uid uname c now (jsTrim text) :: msgs0)
      = { pendingMessage uid uname c now (jsTrim text) with id := sid, status := .sent }
          :: msgs0 := by
  refine ⟨?_, ?_, ?_, ?_⟩
  · simp [sendStart, hne]
  · unfold failSend
    exact map_ite_head _ (tempId now) _ msgs0 rfl hfresh
  · unfold retryStart
    rw [if_neg (by simp)]
    unfold markSending
    rw [map_ite_head _ _ _ msgs0 rfl hfresh]
    simp [pendingMessage, retryPayload]
  · unfold confirmSend
    exact map_ite_head _ (tempId now) _ msgs0 rfl hfresh

/-- Witness for Claim C3 at concrete inputs. -/
theorem fail_then_retry_uses_identical_payload_witness :
    jsTrim "hi there" ≠ ""
    ∧ (∀ m ∈ [wMsg "m9" 300], m.id ≠ tempId 7)
    ∧ (sendStart "u" "U" "chat1" 7 "hi there" [wMsg "m9" 300]
        = { state := pendingMessage "u" "U" "chat1" 7 (jsTrim "hi there") :: [wMsg "m9" 300],
            write := some { text := jsTrim "hi there", senderId := "u", senderName := "U",
                            chatId := "chat1" } }
    ∧ failSend (tempId 7)
        (pendingMessage "u" "U" "chat1" 7 (jsTrim "hi there") :: [wMsg "m9" 300])
      = { pendingMessage "u" "U" "chat1" 7 (jsTrim "hi there") with status := .failed }
          :: [wMsg "m9" 300]
    ∧ retryStart { pendingMessage "u" "U" "chat1" 7 (jsTrim "hi there") with status := .failed }
        ({ pendingMessage "u" "U" "chat1" 7 (jsTrim "hi there") with status := .failed }
          :: [wMsg "m9" 300])
      = { state := pendingMessage "u" "U" "chat1" 7 (jsTrim "hi there") :: [wMsg "m9" 300],
          write := some { text := jsTrim "hi there", senderId := "u", senderName := "U",
                          chatId := "chat1" } }
    ∧ confirmSend (tempId 7) "srv1"
        (pendingMessage "u" "U" "chat1" 7 (jsTrim "hi there") :: [wMsg "m9" 300])
      = { pendingMessage "u" "U" "chat1" 7 (jsTrim "hi there") with
          id := "srv1", status := .sent } :: [wMsg "m9" 300]) :=
  ⟨by decide, by decide,
    fail_then_retry_uses_identical_payload "u" "U" "chat1" "hi there" "srv1" 7
      [wMsg "m9" 300] (by decide) (by decide)⟩

/-- Claim C10: retrying a message whose status is not `failed` is a no-op —
the list is unchanged and no remote write is attempted. -/
theorem retry_non_failed_is_noop (msg : Message) (msgs : List Message)
    (h : msg.status ≠ MessageStatus.failed) :
    retryStart msg msgs = { state := msgs, write := none } := by
  simp [retryStart, h]

/-- Witness for Claim C10 on a `sent` message. -/
theorem retry_non_failed_is_noop_witness :
    (wMsg "m1" 100).status ≠ MessageStatus.failed
    ∧ retryStart (wMsg "m1" 100) [wMsg "m1" 100, wMsg "m2" 200]
        = { state := [wMsg "m1" 100, wMsg "m2" 200], write := none } :=
  ⟨by decide, retry_non_failed_is_noop (wMsg "m1" 100) [wMsg "m1" 100, wMsg "m2" 200]
    (by decide)⟩

/-- Claim C4 (amended): text that is empty after trimming is rejected
before any network attempt — no pending entry is added and no remote write
happens.  The 1000-character bound is not checked by the send pipeline
(see the counterexample); it is enforced only by the input field's
`maxLength`. -/
theorem empty_trim_send_is_noop (uid uname c text : String) (now : Nat)
    (msgs : List Message) (h : jsTrim text = "") :
    sendStart uid uname c now text msgs = { state := msgs, write := none } := by
  simp [sendStart, h]

/-- Witness for amended Claim C4 on whitespace-only input. -/
theorem empty_trim_send_is_noop_witness :
    jsTrim "  " = ""
    ∧ sendStart "u" "U" "chat1" 7 "  " [wMsg "m9" 300]
        = { state := [wMsg "m9" 300], write := none } :=
  ⟨by decide, empty_trim_send_is_noop "u" "U" "chat1" "  " 7 [wMsg "m9" 300] (by decide)⟩

/-- A 1001-character message text. -/
def longText : String := String.mk (List.replicate 1001 'a')

set_option maxRecDepth 100000 in
/-- Counterexample to Claim C4 as stated: a text of 1001 characters (1001
characters after trimming, exceeding the 1000-character bound) submitted
to the send pipeline is NOT rejected — a pending entry is added and a
remote write is performed. -/
theorem overlength_text_is_sent_counterexample :
    1000 < (jsTrim longText).length
    ∧ (sendStart "u" "U" "chat1" 7 longText []).state
        = [pendingMessage "u" "U" "chat1" 7 longText]
    ∧ (sendStart "u" "U" "chat1" 7 longText []).write
        = some { text := longText, senderId := "u", senderName := "U", chatId := "chat1" } := by
  have htrim : jsTrim longText = longText := by decide
  have hne : ¬longText = "" := by decide
  refine ⟨by rw [htrim]; decide, ?_, ?_⟩ <;> simp [sendStart, hne, htrim]

/-- Claim C5: two sends in flight with distinct temporary ids are tracked
independently — if the second send's remote write resolves first, only the
second pending entry transitions to `sent` with the server id, while the
first keeps status `sending` and its temporary id; entries of the prior
list are untouched as well. -/
theorem concurrent_sends_confirm_independently (uid uname c t1 t2 sid : String)
    (now1 now2 : Nat) (s0 : List Message)
    (h1 : jsTrim t1 ≠ "") (h2 : jsTrim t2 ≠ "")
    (hids : tempId now1 ≠ tempId now2)
    (hf2 : ∀ m ∈ s0, m.id ≠ tempId now2) :
    (sendStart uid uname c now1 t1 s0).state
      = pendingMessage uid uname c now1 (jsTrim t1) :: s0
    ∧ (sendStart uid uname c now2 t2 (pendingMessage uid uname c now1 (jsTrim t1) :: s0)).state
      = pendingMessage uid uname c now2 (jsTrim t2)
          :: pendingMessage uid uname c now1 (jsTrim t1) :: s0
    ∧ confirmSend (tempId now2) sid
        (pendingMessage uid uname c now2 (jsTrim t2)
          :: pendingMessage uid uname c now1 (jsTrim t1) :: s0)
      = { pendingMessage uid uname c now2 (jsTrim t2) with id := sid, status := .sent }
          :: pendingMessage uid uname c now1 (jsTrim t1) :: s0
    ∧ (pendingMessage uid uname c now1 (jsTrim t1)).status = .sending
    ∧ (pendingMessage uid uname c now1 (jsTrim t1)).id = tempId now1 := by
  refine ⟨by simp [sendStart, h1], by simp [sendStart, h2], ?_, rfl, rfl⟩
  unfold confirmSend
  refine map_ite_head _ (tempId now2) _ _ rfl ?_
  intro m hm
  rcases List.mem_cons.mp hm with hm2 | hm2
  · simpa [pendingMessage, hm2] using hids
  · exact hf2 m hm2

/-- Witness for Claim C5 with clock readings 1 and 2 (ids temp-1, temp-2)
over a one-message prior list. -/
theorem concurrent_sends_confirm_independently_witness :
    jsTrim "one" ≠ "" ∧ jsTrim "two" ≠ "" ∧ tempId 1 ≠ tempId 2
    ∧ (∀ m ∈ [wMsg "m9" 300], m.id ≠ tempId 2)
    ∧ ((sendStart "u" "U" "chat1" 1 "one" [wMsg "m9" 300]).state
        = pendingMessage "u" "U" "chat1" 1 (jsTrim "one") :: [wMsg "m9" 300]
    ∧ (sendStart "u" "U" "chat1" 2 "two"
          (pendingMessage "u" "U" "chat1" 1 (jsTrim "one") :: [wMsg "m9" 300])).state
        = pendingMessage "u" "U" "chat1" 2 (jsTrim "two")
            :: pendingMessage "u" "U" "chat1" 1 (jsTrim "one") :: [wMsg "m9" 300]
    ∧ confirmSend (tempId 2) "srv2"
        (pendingMessage "u" "U" "chat1" 2 (jsTrim "two")
          :: pendingMessage "u" "U" "chat1" 1 (jsTrim "one") :: [wMsg "m9" 300])
        = { pendingMessage "u" "U" "chat1" 2 (jsTrim "two") with
            id := "srv2", status := .sent }
            :: pendingMessage "u" "U" "chat1" 1 (jsTrim "one") :: [wMsg "m9" 300]
    ∧ (pendingMessage "u" "U" "chat1" 1 (jsTrim "one")).status = .sending
    ∧ (pendingMessage "u" "U" "chat1" 1 (jsTrim "one")).id = tempId 1) :=
  ⟨by decide, by decide, by decide, by decide,
    concurrent_sends_confirm_independently "u" "U" "chat1" "one" "two" "srv2" 1 2
      [wMsg "m9" 300] (by decide) (by decide) (by decide) (by decide)⟩

/-- Claim C6 (amended): each send attempt with non-empty trimmed text adds
exactly one pending entry with status `sending`, and two attempts whose
millisecond clock readings differ receive distinct temporary ids.  Two
attempts within the same millisecond share one temporary id (see the
counterexample), so distinctness holds only across distinct readings. -/
theorem send_attempts_unique_pending_entries (uid uname c t1 t2 : String)
    (now1 now2 : Nat) (msgs : List Message)
    (h1 : jsTrim t1 ≠ "") (h2 : jsTrim t2 ≠ "") (hnow : now1 ≠ now2) :
    (sendStart uid uname c now1 t1 msgs).state
      = pendingMessage uid uname c now1 (jsTrim t1) :: msgs
    ∧ (sendStart uid uname c now2 t2 ((sendStart uid uname c now1 t1 msgs).state)).state
      = pendingMessage uid uname c now2 (jsTrim t2)
          :: pendingMessage uid uname c now1 (jsTrim t1) :: msgs
    ∧ (pendingMessage uid uname c now1 (jsTrim t1)).id
        ≠ (pendingMessage uid uname c now2 (jsTrim t2)).id
    ∧ (pendingMessage uid uname c now1 (jsTrim t1)).status = .sending
    ∧ (pendingMessage uid uname c now2 (jsTrim t2)).status = .sending := by
  refine ⟨by simp [sendStart, h1], by simp [sendStart, h1, h2], ?_, rfl, rfl⟩
  intro he
  exact hnow (tempId_inj now1 now2 he)

/-- Witness for amended Claim C6 at clock readings 41 and 42. -/
theorem send_attempts_unique_pending_entries_witness :
    jsTrim "hi" ≠ "" ∧ jsTrim "yo" ≠ "" ∧ (41 : Nat) ≠ 42
    ∧ ((sendStart "u" "U" "chat1" 41 "hi" []).state
        = [pendingMessage "u" "U" "chat1" 41 (jsTrim "hi")]
    ∧ (sendStart "u" "U" "chat1" 42 "yo" ((sendStart "u" "U" "chat1" 41 "hi" []).state)).state
        = [pendingMessage "u" "U" "chat1" 42 (jsTrim "yo"),
            pendingMessage "u" "U" "chat1" 41 (jsTrim "hi")]
    ∧ (pendingMessage "u" "U" "chat1" 41 (jsTrim "hi")).id
        ≠ (pendingMessage "u" "U" "chat1" 42 (jsTrim "yo")).id
    ∧ (pendingMessage "u" "U" "chat1" 41 (jsTrim "hi")).status = .sending
    ∧ (pendingMessage "u" "U" "chat1" 42 (jsTrim "yo")).status = .sending) :=
  ⟨by decide, by decide, by decide,
    send_attempts_unique_pending_entries "u" "U" "chat1" "hi" "yo" 41 42 []
      (by decide) (by decide) (by decide)⟩

/-- Counterexample to Claim C6 as stated: two distinct send attempts (texts
"hi" and "yo") issued in the same millisecond (`Date.now()` = 5) both get
temporary id "temp-5"; a single confirmation then rewrites BOTH entries,
so distinct concurrent attempts do not always have distinct temporary
ids. -/
theorem same_millisecond_ids_collide_counterexample :
    ((sendStart "u" "U" "chat1" 5 "yo"
        ((sendStart "u" "U" "chat1" 5 "hi" []).state)).state.map (fun m => m.id))
      = ["temp-5", "temp-5"]
    ∧ ((sendStart "u" "U" "chat1" 5 "yo"
        ((sendStart "u" "U" "chat1" 5 "hi" []).state)).state.map (fun m => m.text))
      = ["yo", "hi"]
    ∧ ((sendStart "u" "U" "chat1" 5 "yo"
        ((sendStart "u" "U" "chat1" 5 "hi" []).state)).state.map (fun m => m.status))
      = [.sending, .sending]
    ∧ ((confirmSend "temp-5" "srv1"
        ((sendStart "u" "U" "chat1" 5 "yo"
          ((sendStart "u" "U" "chat1" 5 "hi" []).state)).state)).map (fun m => m.status))
      = [.sent, .sent] := by
  exact ⟨by decide, by decide, by decide, by decide⟩

/-- Claim C7: every cache operation is fail-soft.  `saveMessages` and
`clearMessages` never raise to their caller: when the underlying store
operation throws (here: the key is fault-injected, and `saveMessagesBody`
does produce the error), the error is swallowed and the store is left
unchanged.  `loadMessages` returns the empty list when the underlying read
throws, when the entry is absent, and when the stored blob fails to
deserialize. -/
theorem cache_operations_fail_soft (st : MMKVStore) (c : String) (msgs : List Message) :
    saveMessages { st with setFails := getCacheKey c :: st.setFails } c msgs
      = { st with setFails := getCacheKey c :: st.setFails }
    ∧ saveMessagesBody { st with setFails := getCacheKey c :: st.setFails } c msgs
      = .error ()
    ∧ loadMessages { st with getFails := getCacheKey c :: st.getFails } c = []
    ∧ loadMessages { st with data := kvDelete (getCacheKey c) st.data, getFails := [] } c = []
    ∧ loadMessages { st with
          data := kvSet (getCacheKey c) CacheValue.corrupt st.data, getFails := [] } c = []
    ∧ clearMessages { st with deleteFails := getCacheKey c :: st.deleteFails } c
      = { st with deleteFails := getCacheKey c :: st.deleteFails } := by
  refine ⟨?_, ?_, ?_, ?_, ?_, ?_⟩
  · simp [saveMessages, saveMessagesBody, mmkvSet]
  · simp [saveMessagesBody, mmkvSet]
  · simp [loadMessages, mmkvGetString]
  · simp [loadMessages, mmkvGetString, kvGet_kvDelete_self]
  · simp [loadMessages, mmkvGetString, kvGet_kvSet_self]
  · simp [clearMessages, mmkvDelete]

/-- Claim C9: the cache store is partitioned by chat id.  Saving or
clearing the entry of chat `c1` leaves the stored entry — and hence the
loaded messages — of any other chat `c2` unchanged. -/
theorem cache_partitioned_by_chat_id (st : MMKVStore) (c1 c2 : String)
    (msgs : List Message) (h : c1 ≠ c2) :
    kvGet (getCacheKey c2) (saveMessages st c1 msgs).data
      = kvGet (getCacheKey c2) st.data
    ∧ kvGet (getCacheKey c2) (clearMessages st c1).data
      = kvGet (getCacheKey c2) st.data
    ∧ loadMessages (saveMessages st c1 msgs) c2 = loadMessages st c2
    ∧ loadMessages (clearMessages st c1) c2 = loadMessages st c2 := by
  have hkey : getCacheKey c1 ≠ getCacheKey c2 := fun e => h (getCacheKey_inj c1 c2 e)
  have hsave : kvGet (getCacheKey c2) (saveMessages st c1 msgs).data
      = kvGet (getCacheKey c2) st.data := by
    by_cases hmem : getCacheKey c1 ∈ st.setFails <;>
      simp [saveMessages, saveMessagesBody, mmkvSet, hmem, kvGet_kvSet_ne _ _ _ _ hkey]
  have hsaveFails : (saveMessages st c1 msgs).getFails = st.getFails := by
    by_cases hmem : getCacheKey c1 ∈ st.setFails <;>
      simp [saveMessages, saveMessagesBody, mmkvSet, hmem]
  have hclear : kvGet (getCacheKey c2) (clearMessages st c1).data
      = kvGet (getCacheKey c2) st.data := by
    by_cases hmem : getCacheKey c1 ∈ st.deleteFails <;>
      simp [clearMessages, mmkvDelete, hmem, kvGet_kvDelete_ne _ _ _ hkey]
  have hclearFails : (clearMessages st c1).getFails = st.getFails := by
    by_cases hmem : getCacheKey c1 ∈ st.deleteFails <;>
      simp [clearMessages, mmkvDelete, hmem]
  refine ⟨hsave, hclear, ?_, ?_⟩
  · simp [loadMessages, mmkvGetString, hsave, hsaveFails]
  · simp [loadMessages, mmkvGetString, hclear, hclearFails]

/-- Witness for Claim C9: saving into chat1 and clearing chat1 leave the
stored entry of chat2 intact. -/
theorem cache_partitioned_by_chat_id_witness :
    ("chat1" : String) ≠ "chat2"
    ∧ (kvGet (getCacheKey "chat2")
        (saveMessages
          { wStore with data := [(getCacheKey "chat2", CacheValue.good [wMsg "1" 100])] }
          "chat1" [wMsg "2" 200]).data
      = kvGet (getCacheKey "chat2")
          ({ wStore with
              data := [(getCacheKey "chat2", CacheValue.good [wMsg "1" 100])] }).data
    ∧ kvGet (getCacheKey "chat2")
        (clearMessages
          { wStore with data := [(getCacheKey "chat2", CacheValue.good [wMsg "1" 100])] }
          "chat1").data
      = kvGet (getCacheKey "chat2")
          ({ wStore with
              data := [(getCacheKey "chat2", CacheValue.good [wMsg "1" 100])] }).data
    ∧ loadMessages
        (saveMessages
          { wStore with data := [(getCacheKey "chat2", CacheValue.good [wMsg "1" 100])] }
          "chat1" [wMsg "2" 200]) "chat2"
      = loadMessages
          { wStore with data := [(getCacheKey "chat2", CacheValue.good [wMsg "1" 100])] }
          "chat2"
    ∧ loadMessages
        (clearMessages
          { wStore with data := [(getCacheKey "chat2", CacheValue.good [wMsg "1" 100])] }
          "chat1") "chat2"
      = loadMessages
          { wStore with data := [(getCacheKey "chat2", CacheValue.good [wMsg "1" 100])] }
          "chat2") :=
  ⟨by decide,
    cache_partitioned_by_chat_id
      { wStore with data := [(getCacheKey "chat2", CacheValue.good [wMsg "1" 100])] }
      "chat1" "chat2" [wMsg "2" 200] (by decide)⟩

/-- Counterexample to Claim C8 as stated: the message-subscription adapter
(§4.3, `ChatFirestoreService.subscribeToMessages`) performs NO
classification — an error with code "failed-precondition" is forwarded
with its raw message instead of the index/setup-required category used by
the chat-list adapter. -/
theorem message_adapter_does_not_classify_counterexample :
    messagesErrorMessage { code := "failed-precondition", message := "raw firestore failure" }
      = "raw firestore failure"
    ∧ messagesErrorMessage { code := "failed-precondition", message := "raw firestore failure" }
      ≠ "Database setup required. Please check Firestore indexes."
    ∧ userChatsErrorMessage { code := "failed-precondition", message := "raw firestore failure" }
      = "Database setup required. Please check Firestore indexes." :=
  ⟨rfl, by decide, rfl⟩

/-- Claim C8 (amended): the error taxonomy {index/setup required,
permission denied, transient unavailability, unknown} is implemented by
the chat-list subscription adapter (§4.4) only: it maps the codes
"failed-precondition", "permission-denied" and "unavailable" to their
user-facing categories and forwards any other error unchanged, while the
message-subscription adapter (§4.3) forwards every error unclassified. -/
theorem error_classification_chatlist_only (m s : String)
    (hs1 : s ≠ "failed-precondition") (hs2 : s ≠ "permission-denied")
    (hs3 : s ≠ "unavailable") :
    userChatsErrorMessage { code := "failed-precondition", message := m }
      = "Database setup required. Please check Firestore indexes."
    ∧ userChatsErrorMessage { code := "permission-denied", message := m }
      = "Permission denied. Please check your authentication."
    ∧ userChatsErrorMessage { code := "unavailable", message := m }
      = "Service temporarily unavailable. Please try again."
    ∧ userChatsErrorMessage { code := s, message := m } = m
    ∧ messagesErrorMessage { code := s, message := m } = m
    ∧ messagesErrorMessage { code := "failed-precondition", message := m } = m := by
  refine ⟨rfl, ?_, ?_, ?_, rfl, rfl⟩
  · simp [userChatsErrorMessage]
  · simp [userChatsErrorMessage]
  · unfold userChatsErrorMessage
    rw [if_neg hs1, if_neg hs2, if_neg hs3]

/-- Witness for amended Claim C8 with an unrecognized code "cancelled". -/
theorem error_classification_chatlist_only_witness :
    ("cancelled" : String) ≠ "failed-precondition"
    ∧ ("cancelled" : String) ≠ "permission-denied"
    ∧ ("cancelled" : String) ≠ "unavailable"
    ∧ (userChatsErrorMessage { code := "failed-precondition", message := "boom" }
        = "Database setup required. Please check Firestore indexes."
    ∧ userChatsErrorMessage { code := "permission-denied", message := "boom" }
        = "Permission denied. Please check your authentication."
    ∧ userChatsErrorMessage { code := "unavailable", message := "boom" }
        = "Service temporarily unavailable. Please try again."
    ∧ userChatsErrorMessage { code := "cancelled", message := "boom" } = "boom"
    ∧ messagesErrorMessage { code := "cancelled", message := "boom" } = "boom"
    ∧ messagesErrorMessage { code := "failed-precondition", message := "boom" } = "boom") :=
  ⟨by decide, by decide, by decide,
    error_classification_chatlist_only "boom" "cancelled"
      (by decide) (by decide) (by decide)⟩
